import Mathlib

/-!
Liveness / readiness probe (`haleyrc/probe`).

A shallow embedding of `probe.go`, `adapters/gorilla/mux.go` and the helper `get` of
`probe_test.go`.

* A `*Probe` receiver is an address into a store of `Probe` cells; methods that
  mutate the receiver return the new store.
* An `http.ResponseWriter` is the sequence of calls made on it; the status code and body
  that an `httptest.ResponseRecorder` reports are computed from that sequence.
* A handler `func(http.ResponseWriter, *http.Request)` is a function of the store, the
  writer and the request, returning the store and writer afterwards.
* A router's `HandleFunc` returns the router afterwards together with `Except.ok ()`
  when the call returned and `Except.error e` when it panicked with value `e`.
-/

namespace probe

/-! ## HTTP vocabulary (`net/http`) -/

/-- Status code `http.StatusOK`. -/
def StatusOK : Nat := 200

/-- Status code `http.StatusNotFound`. -/
def StatusNotFound : Nat := 404

/-- Status code `http.StatusServiceUnavailable`. -/
def StatusServiceUnavailable : Nat := 503

/-- Method name `http.MethodGet`. -/
def MethodGet : String := "GET"

/-- The parts of an `*http.Request` a handler can look at. -/
structure Request where
  Method : String
  Path : String
  Header : List (String × String)
  Body : List Nat
deriving DecidableEq, Repr

/-- One call on an `http.ResponseWriter`. -/
inductive WriterCall where
  | WriteHeader (statusCode : Nat)
  | Write (bytes : List Nat)
deriving DecidableEq, Repr

/-- An `http.ResponseWriter`, as the calls it has received so far, oldest first. -/
structure ResponseWriter where
  calls : List WriterCall
deriving DecidableEq, Repr

/-- The method `w.WriteHeader(statusCode)`. -/
def ResponseWriter.WriteHeader (w : ResponseWriter) (statusCode : Nat) : ResponseWriter :=
  { calls := w.calls ++ [WriterCall.WriteHeader statusCode] }

/-- The method `w.Write(bytes)`. -/
def ResponseWriter.Write (w : ResponseWriter) (bytes : List Nat) : ResponseWriter :=
  { calls := w.calls ++ [WriterCall.Write bytes] }

/-- The writer `httptest.NewRecorder()` starts as: nothing written. -/
def NewRecorder : ResponseWriter := { calls := [] }

/-- The status a recorder reports (`w.Result().StatusCode`): the code of the first
`WriteHeader` call when it comes before any `Write`, and 200 otherwise. -/
def ResponseWriter.StatusCode (w : ResponseWriter) : Nat :=
  match w.calls with
  | WriterCall.WriteHeader c :: _ => c
  | _ => StatusOK

/-- The body bytes of one call: a `Write` contributes its bytes, a `WriteHeader` none. -/
def WriterCall.body : WriterCall → List Nat
  | WriterCall.WriteHeader _ => []
  | WriterCall.Write bytes => bytes

/-- The body a recorder reports: the bytes of all `Write` calls, in order. -/
def ResponseWriter.Body (w : ResponseWriter) : List Nat :=
  (w.calls.map WriterCall.body).flatten

/-- The request `httptest.NewRequest(method, path, nil)`. -/
def NewRequest (method path : String) : Request :=
  { Method := method, Path := path, Header := [], Body := [] }

/-! ## `probe.go` -/

/-- Constant `DefaultLivezPath`. -/
def DefaultLivezPath : String := "/livez"

/-- Constant `DefaultReadyzPath`. -/
def DefaultReadyzPath : String := "/readyz"

/-- The struct `Probe`. -/
structure Probe where
  ready : Bool
deriving DecidableEq, Repr

/-- A `*Probe`: the address of a `Probe` cell. -/
abbrev Ptr := Nat

/-- The store of `Probe` cells, by address. -/
abbrev Store := Ptr → Probe

/-- A handler `func(http.ResponseWriter, *http.Request)`. -/
abbrev HandlerFunc := Store → ResponseWriter → Request → Store × ResponseWriter

/-- The declaration `var p probe.Probe`: the cell at `p` holds the zero value. -/
def Store.var (s : Store) (p : Ptr) : Store :=
  Function.update s p { ready := false }

/-- Method `(p *Probe) LivezHandler(w, r)`. -/
def Probe.LivezHandler (_p : Ptr) : HandlerFunc := fun s w _r =>
  (s, w.WriteHeader StatusOK)

/-- Method `(p *Probe) NotReady()`. -/
def Probe.NotReady (p : Ptr) (s : Store) : Store :=
  Function.update s p { s p with ready := false }

/-- Method `(p *Probe) Ready()`. -/
def Probe.Ready (p : Ptr) (s : Store) : Store :=
  Function.update s p { s p with ready := true }

/-- Method `(p *Probe) ReadyzHandler(w, r)`. -/
def Probe.ReadyzHandler (p : Ptr) : HandlerFunc := fun s w _r =>
  if (s p).ready then
    (s, w.WriteHeader StatusOK)
  else
    (s, w.WriteHeader StatusServiceUnavailable)

/-- The interface `Router`: one method, `HandleFunc(path, h)`, on a receiver of type `ρ`.
The call either returns (`Except.ok ()`) or panics with a value of type `ε`; either way
the receiver afterwards is the second component. -/
structure Router (ρ : Type) (ε : Type) where
  HandleFunc : ρ → String → HandlerFunc → Except ε Unit × ρ

/-- Method `(p *Probe) RegisterDefaults(m Router)`: a panic of the first `HandleFunc`
unwinds through `RegisterDefaults`, so the second one is not reached. -/
def Probe.RegisterDefaults {ρ ε : Type} (R : Router ρ ε) (p : Ptr) (m : ρ) :
    Except ε Unit × ρ :=
  match R.HandleFunc m DefaultLivezPath (Probe.LivezHandler p) with
  | (Except.error e, m₁) => (Except.error e, m₁)
  | (Except.ok (), m₁) => R.HandleFunc m₁ DefaultReadyzPath (Probe.ReadyzHandler p)

/-! ## `probe_test.go` -/

/-- Helper `get(path, h)` of the tests, run in store `s`: a GET request for `path` is
handed to `h` with a new recorder, and the recorded status code is returned. -/
def get (path : String) (h : HandlerFunc) (s : Store) : Nat :=
  (h s NewRecorder (NewRequest MethodGet path)).2.StatusCode

/-! ## Sequences of calls on one probe -/

/-- One call a program makes on the probe at `p`: a state transition, a handler
invocation with its writer and request, or `RegisterDefaults` on the program's router. -/
inductive Call where
  | Ready
  | NotReady
  | LivezHandler (w : ResponseWriter) (r : Request)
  | ReadyzHandler (w : ResponseWriter) (r : Request)
  | RegisterDefaults
deriving DecidableEq, Repr

/-- Whether the call is one of the two state transitions, `Ready` and `NotReady`. -/
def Call.isTransition : Call → Bool
  | Call.Ready => true
  | Call.NotReady => true
  | _ => false

/-- The effect of one call on the store and on the router `m`. A handler's writer
belongs to its caller and is not kept; a panic of `RegisterDefaults` is taken to be
recovered by the caller, the router staying as the panicking call left it. -/
def Call.run {ρ ε : Type} (R : Router ρ ε) (p : Ptr) : Call → Store × ρ → Store × ρ
  | Call.Ready, (s, m) => (Probe.Ready p s, m)
  | Call.NotReady, (s, m) => (Probe.NotReady p s, m)
  | Call.LivezHandler w r, (s, m) => ((Probe.LivezHandler p s w r).1, m)
  | Call.ReadyzHandler w r, (s, m) => ((Probe.ReadyzHandler p s w r).1, m)
  | Call.RegisterDefaults, (s, m) => (s, (Probe.RegisterDefaults R p m).2)

/-- The effect of a sequence of calls, made one after the other. -/
def runCalls {ρ ε : Type} (R : Router ρ ε) (p : Ptr) (cs : List Call) (st : Store × ρ) :
    Store × ρ :=
  cs.foldl (fun st c => c.run R p st) st

/-- The last state transition of a sequence of calls, if it has one. -/
def lastTransition (cs : List Call) : Option Call :=
  (cs.filter Call.isTransition).getLast?

/-! ## Routers as dispatch tables -/

/-- Body that `http.NotFound` writes. -/
def notFoundBody : List Nat := "404 page not found\n".toList.map Char.toNat

/-- Status code `http.StatusTeapot`. -/
def StatusTeapot : Nat := 418

/-- A handler of some other part of the program: it answers every request with 418. -/
def teapot : HandlerFunc := fun s w _r =>
  (s, w.WriteHeader StatusTeapot)

/-- Handler `http.NotFound`: status 404 and a short text. -/
def NotFound : HandlerFunc := fun s w _r =>
  (s, (w.WriteHeader StatusNotFound).Write notFoundBody)

/-- Serving a request through a router in state `m` whose table is read by `dispatch`:
the handler bound to the request's path is called, and `http.NotFound` when there is
none. -/
def ServeHTTP {ρ : Type} (dispatch : ρ → String → Option HandlerFunc) (m : ρ) :
    HandlerFunc := fun s w r =>
  match dispatch m r.Path with
  | some h => h s w r
  | none => NotFound s w r

/-- A router conforms to the dispatch-table reading `dispatch` when a `HandleFunc` call
that returns leaves its path, if no handler was bound to it before, resolving to its
handler, and every other path resolving as before. What a bind does to a path that has
a handler already is left to the router: the standard multiplexer panics, a
`mux.Router` keeps serving the earlier route. -/
structure Router.Conforming {ρ ε : Type} (R : Router ρ ε)
    (dispatch : ρ → String → Option HandlerFunc) : Prop where
  bound : ∀ m path h, (R.HandleFunc m path h).1 = Except.ok () → dispatch m path = none →
    dispatch (R.HandleFunc m path h).2 path = some h
  others : ∀ m path h q, (R.HandleFunc m path h).1 = Except.ok () → q ≠ path →
    dispatch (R.HandleFunc m path h).2 q = dispatch m q

/-- The values `http.ServeMux` panics with when a registration is refused. -/
inductive ServeMuxPanic where
  | invalidPattern
  | multipleRegistrations (pattern : String)
deriving DecidableEq, Repr

/-- The standard multiplexer `http.ServeMux`, for patterns that are plain rooted paths:
its registered patterns with their handlers, in registration order. -/
structure ServeMux where
  entries : List (String × HandlerFunc)

/-- The multiplexer `http.NewServeMux()` returns: nothing registered. -/
def NewServeMux : ServeMux := { entries := [] }

/-- The handler registered for a path, if any. -/
def ServeMux.lookup (m : ServeMux) (path : String) : Option HandlerFunc :=
  m.entries.lookup path

/-- Method `HandleFunc` of `http.ServeMux`: it panics on an empty pattern and on a
pattern that is registered already, and adds the entry otherwise. -/
def ServeMux.HandleFunc (m : ServeMux) (pattern : String) (h : HandlerFunc) :
    Except ServeMuxPanic Unit × ServeMux :=
  if pattern = "" then
    (Except.error ServeMuxPanic.invalidPattern, m)
  else if (m.lookup pattern).isSome then
    (Except.error (ServeMuxPanic.multipleRegistrations pattern), m)
  else
    (Except.ok (), { entries := m.entries ++ [(pattern, h)] })

/-- The multiplexer `http.ServeMux` satisfies the interface `Router`. -/
def ServeMux.router : Router ServeMux ServeMuxPanic :=
  { HandleFunc := ServeMux.HandleFunc }

/-- Method `ServeHTTP` of `http.ServeMux`. -/
def ServeMux.ServeHTTP (m : ServeMux) : HandlerFunc :=
  probe.ServeHTTP ServeMux.lookup m

/-- A router that keeps, next to the state of the router `R` it stands for, the list of
`HandleFunc` calls it has received, oldest first: each call is noted with its path and
handler and then made on `R`. -/
def Router.recording {ρ ε : Type} (R : Router ρ ε) :
    Router (List (String × HandlerFunc) × ρ) ε :=
  { HandleFunc := fun st path h =>
      ((R.HandleFunc st.2 path h).1, (st.1 ++ [(path, h)], (R.HandleFunc st.2 path h).2)) }

end probe

/-! ## `github.com/gorilla/mux`, as far as the adapter and its test use it -/

namespace mux

/-- A registered route: a literal path and its handler. -/
structure Route where
  path : String
  handler : probe.HandlerFunc

/-- The router `mux.Router`: its routes, in registration order. -/
structure Router where
  routes : List Route

/-- The router `mux.NewRouter()` returns: no routes. -/
def NewRouter : Router := { routes := [] }

/-- Method `HandleFunc(path, f)` of `mux.Router`: a new route is added after the ones
there are and returned; the call does not panic. -/
def Router.HandleFunc (r : Router) (path : String) (f : probe.HandlerFunc) :
    Except Empty Route × Router :=
  (Except.ok { path := path, handler := f },
    { routes := r.routes ++ [{ path := path, handler := f }] })

/-- The handler of the first route whose path is the requested one, if any. -/
def Router.Match (r : Router) (path : String) : Option probe.HandlerFunc :=
  (r.routes.find? (fun rt => rt.path == path)).map Route.handler

/-- Method `ServeHTTP` of `mux.Router`. -/
def Router.ServeHTTP (r : Router) : probe.HandlerFunc :=
  probe.ServeHTTP Router.Match r

end mux

/-! ## `adapters/gorilla/mux.go` -/

namespace gorilla

/-- What the adapter uses of the router it wraps, a `*mux.Router` with state `ρ`: the
method `HandleFunc(path, f)`, which returns a route or panics. -/
structure Wrapped (ρ : Type) (route : Type) (ε : Type) where
  HandleFunc : ρ → String → probe.HandlerFunc → Except ε route × ρ

/-- The router `mux.Router` as the wrapped router of the adapter. -/
def Wrapped.mux : Wrapped mux.Router mux.Route Empty :=
  { HandleFunc := mux.Router.HandleFunc }

/-- The struct `router`: its field `gr` points to the wrapped router, whose state is
kept here. -/
structure router (ρ : Type) where
  gr : ρ

/-- Function `Router(gr)`, which returns `&router{gr: gr}`. -/
def Router {ρ : Type} (gr : ρ) : router ρ :=
  { gr := gr }

/-- Method `(r *router) HandleFunc(path, h)`: the wrapped router's `HandleFunc` is
called with the same arguments and the route it returns is dropped. -/
def router.HandleFunc {ρ route ε : Type} (G : Wrapped ρ route ε) (r : router ρ)
    (path : String) (h : probe.HandlerFunc) : Except ε Unit × router ρ :=
  match G.HandleFunc r.gr path h with
  | (Except.error e, gr) => (Except.error e, { gr := gr })
  | (Except.ok _, gr) => (Except.ok (), { gr := gr })

/-- The adapter satisfies the interface `probe.Router`. -/
def router.asRouter {ρ route ε : Type} (G : Wrapped ρ route ε) :
    probe.Router (router ρ) ε :=
  { HandleFunc := router.HandleFunc G }

/-- How requests are resolved on the `mux.Router` an adapter wraps. -/
def router.Match (r : router mux.Router) (path : String) : Option probe.HandlerFunc :=
  r.gr.Match path

end gorilla

namespace probe

/-! ## The handlers -/

/-- C1: in every store, for every writer and request, `ReadyzHandler` leaves exactly one
new call on the writer, `WriteHeader 200` when the probe's flag is true and
`WriteHeader 503` when it is false; it makes no `Write` call, so the body the writer
reports does not change and the body of a new recorder stays empty; the status a new
recorder reports is 200 or 503 accordingly, and no other call is made. -/
theorem ReadyzHandler_status (p : Ptr) (s : Store) (w : ResponseWriter) (r : Request) :
    (Probe.ReadyzHandler p s w r).2.calls =
        w.calls ++ [WriterCall.WriteHeader (if (s p).ready = true then 200 else 503)] ∧
    (Probe.ReadyzHandler p s w r).2.Body = w.Body ∧
    (Probe.ReadyzHandler p s NewRecorder r).2.Body = [] ∧
    (Probe.ReadyzHandler p s NewRecorder r).2.StatusCode =
        (if (s p).ready = true then 200 else 503) ∧
    ((Probe.ReadyzHandler p s NewRecorder r).2.calls = [WriterCall.WriteHeader 200] ∨
      (Probe.ReadyzHandler p s NewRecorder r).2.calls = [WriterCall.WriteHeader 503]) := by
  cases hr : (s p).ready <;>
    simp [Probe.ReadyzHandler, hr, ResponseWriter.WriteHeader, ResponseWriter.Body,
      ResponseWriter.StatusCode, NewRecorder, WriterCall.body, StatusOK,
      StatusServiceUnavailable]

/-- C2: in every store, whatever the probe's flag, and in particular for a probe just
declared, `LivezHandler` makes exactly one call on the writer, `WriteHeader 200`, for
every request; it makes no `Write` call, so a new recorder reports status 200 and an
empty body. -/
theorem LivezHandler_status (p : Ptr) (s : Store) (w : ResponseWriter) (r : Request) :
    (Probe.LivezHandler p s w r).2.calls = w.calls ++ [WriterCall.WriteHeader 200] ∧
    (Probe.LivezHandler p s w r).2.Body = w.Body ∧
    (Probe.LivezHandler p s NewRecorder r).2.StatusCode = 200 ∧
    (Probe.LivezHandler p s NewRecorder r).2.Body = [] ∧
    (Probe.LivezHandler p (s.var p) NewRecorder r).2.StatusCode = 200 ∧
    (Probe.LivezHandler p (s.var p) NewRecorder r).2.Body = [] := by
  simp [Probe.LivezHandler, ResponseWriter.WriteHeader, ResponseWriter.Body,
    ResponseWriter.StatusCode, NewRecorder, WriterCall.body, StatusOK]

/-- C3: a probe just declared, with no `Ready` or `NotReady` call made on it, has its flag
false, and `ReadyzHandler` on it writes 503 for every request: its one call on the
writer is `WriteHeader 503`, and the test helper `get` reports 503 for every path. -/
theorem ReadyzHandler_zero_value (p : Ptr) (s : Store) (w : ResponseWriter) (r : Request)
    (path : String) :
    ((s.var p) p).ready = false ∧
    (Probe.ReadyzHandler p (s.var p) w r).2.calls =
        w.calls ++ [WriterCall.WriteHeader 503] ∧
    (Probe.ReadyzHandler p (s.var p) NewRecorder r).2.StatusCode = 503 ∧
    get path (Probe.ReadyzHandler p) (s.var p) = 503 := by
  simp [get, Store.var, Probe.ReadyzHandler, ResponseWriter.WriteHeader,
    ResponseWriter.StatusCode, NewRecorder, StatusServiceUnavailable]

/-- C4: `Ready` and `NotReady` are total functions of the store. In every store, after
`Ready` the flag is true and `ReadyzHandler` writes 200; after a following `NotReady`
the flag is false and `ReadyzHandler` writes 503 again. No other cell of the store is
touched by either call. -/
theorem Ready_then_NotReady (p : Ptr) (s : Store) (w : ResponseWriter) (r : Request) :
    ((Probe.Ready p s) p).ready = true ∧
    (Probe.ReadyzHandler p (Probe.Ready p s) w r).2.calls =
        w.calls ++ [WriterCall.WriteHeader 200] ∧
    (Probe.ReadyzHandler p (Probe.Ready p s) NewRecorder r).2.StatusCode = 200 ∧
    ((Probe.NotReady p (Probe.Ready p s)) p).ready = false ∧
    (Probe.ReadyzHandler p (Probe.NotReady p (Probe.Ready p s)) w r).2.calls =
        w.calls ++ [WriterCall.WriteHeader 503] ∧
    (Probe.ReadyzHandler p (Probe.NotReady p (Probe.Ready p s)) NewRecorder r).2.StatusCode
        = 503 ∧
    (∀ q, q ≠ p → (Probe.Ready p s) q = s q ∧
        (Probe.NotReady p (Probe.Ready p s)) q = s q) := by
  refine ⟨?_, ?_, ?_, ?_, ?_, ?_, ?_⟩ <;>
    simp +contextual [Probe.Ready, Probe.NotReady, Probe.ReadyzHandler,
      ResponseWriter.WriteHeader, ResponseWriter.StatusCode, NewRecorder, StatusOK,
      StatusServiceUnavailable, Function.update]

/-! ## Helper lemmas -/

theorem Ready_apply_self (p : Ptr) (s : Store) : (Probe.Ready p s) p = { ready := true } := by
  simp [Probe.Ready]

theorem NotReady_apply_self (p : Ptr) (s : Store) :
    (Probe.NotReady p s) p = { ready := false } := by
  simp [Probe.NotReady]

theorem Ready_of_ready (p : Ptr) (s : Store) (h : (s p).ready = true) :
    Probe.Ready p s = s := by
  funext q
  by_cases hq : q = p
  · subst hq
    rw [Ready_apply_self]
    cases hs : s q with
    | mk b => rw [hs] at h; simp at h; rw [h]
  · simp [Probe.Ready, Function.update, hq]

theorem NotReady_of_not_ready (p : Ptr) (s : Store) (h : (s p).ready = false) :
    Probe.NotReady p s = s := by
  funext q
  by_cases hq : q = p
  · subst hq
    rw [NotReady_apply_self]
    cases hs : s q with
    | mk b => rw [hs] at h; simp at h; rw [h]
  · simp [Probe.NotReady, Function.update, hq]

theorem LivezHandler_store (p : Ptr) (s : Store) (w : ResponseWriter) (r : Request) :
    (Probe.LivezHandler p s w r).1 = s := rfl

theorem ReadyzHandler_store (p : Ptr) (s : Store) (w : ResponseWriter) (r : Request) :
    (Probe.ReadyzHandler p s w r).1 = s := by
  unfold Probe.ReadyzHandler
  split <;> rfl

theorem run_store_of_not_transition {ρ ε : Type} (R : Router ρ ε) (p : Ptr) (c : Call)
    (hc : c.isTransition = false) (st : Store × ρ) : (c.run R p st).1 = st.1 := by
  obtain ⟨s, m⟩ := st
  cases c with
  | Ready => simp [Call.isTransition] at hc
  | NotReady => simp [Call.isTransition] at hc
  | LivezHandler w r => rfl
  | ReadyzHandler w r => exact ReadyzHandler_store p s w r
  | RegisterDefaults => rfl

theorem runCalls_append {ρ ε : Type} (R : Router ρ ε) (p : Ptr) (cs ds : List Call)
    (st : Store × ρ) : runCalls R p (cs ++ ds) st = runCalls R p ds (runCalls R p cs st) := by
  simp [runCalls, List.foldl_append]

theorem runCalls_store_of_no_transition {ρ ε : Type} (R : Router ρ ε) (p : Ptr)
    (cs : List Call) (hcs : ∀ c ∈ cs, c.isTransition = false) (st : Store × ρ) :
    (runCalls R p cs st).1 = st.1 := by
  induction cs generalizing st with
  | nil => rfl
  | cons c cs ih =>
    have h1 := run_store_of_not_transition R p c (hcs c (List.mem_cons_self c cs)) st
    have h2 := ih (fun d hd => hcs d (List.mem_cons_of_mem c hd)) (c.run R p st)
    simpa [runCalls, h1] using h2

theorem RegisterDefaults_of_ok {ρ ε : Type} (R : Router ρ ε) (p : Ptr) (m : ρ)
    (h : (R.HandleFunc m DefaultLivezPath (Probe.LivezHandler p)).1 = Except.ok ()) :
    Probe.RegisterDefaults R p m =
      R.HandleFunc (R.HandleFunc m DefaultLivezPath (Probe.LivezHandler p)).2
        DefaultReadyzPath (Probe.ReadyzHandler p) := by
  unfold Probe.RegisterDefaults
  rcases hf : R.HandleFunc m DefaultLivezPath (Probe.LivezHandler p) with ⟨e | u, m₁⟩
  · rw [hf] at h; simp at h
  · rfl

theorem RegisterDefaults_of_error {ρ ε : Type} (R : Router ρ ε) (p : Ptr) (m : ρ) (e : ε)
    (h : (R.HandleFunc m DefaultLivezPath (Probe.LivezHandler p)).1 = Except.error e) :
    Probe.RegisterDefaults R p m =
      (Except.error e, (R.HandleFunc m DefaultLivezPath (Probe.LivezHandler p)).2) := by
  unfold Probe.RegisterDefaults
  rcases hf : R.HandleFunc m DefaultLivezPath (Probe.LivezHandler p) with ⟨e₁ | u, m₁⟩
  · rw [hf] at h; simp at h; simp [h]
  · rw [hf] at h; simp at h

theorem RegisterDefaults_ok_first {ρ ε : Type} (R : Router ρ ε) (p : Ptr) (m : ρ)
    (h : (Probe.RegisterDefaults R p m).1 = Except.ok ()) :
    (R.HandleFunc m DefaultLivezPath (Probe.LivezHandler p)).1 = Except.ok () := by
  rcases hf : (R.HandleFunc m DefaultLivezPath (Probe.LivezHandler p)).1 with e | u
  · rw [RegisterDefaults_of_error R p m e hf] at h; simp at h
  · rfl

theorem lookup_append_of_ne (l : List (String × HandlerFunc)) (path q : String)
    (h : HandlerFunc) (hq : q ≠ path) : (l ++ [(path, h)]).lookup q = l.lookup q := by
  have hb : (q == path) = false := by simpa using hq
  induction l with
  | nil => simp [List.lookup, hb]
  | cons e l ih =>
    obtain ⟨k, v⟩ := e
    cases hk : q == k <;> simp [List.lookup, hk, ih]

theorem lookup_append_of_none (l : List (String × HandlerFunc)) (path : String)
    (h : HandlerFunc) (hn : l.lookup path = none) :
    (l ++ [(path, h)]).lookup path = some h := by
  induction l with
  | nil => simp [List.lookup]
  | cons e l ih =>
    obtain ⟨k, v⟩ := e
    cases hk : path == k
    · simp only [List.cons_append, List.lookup, hk] at hn ⊢
      exact ih hn
    · simp [List.lookup, hk] at hn

theorem ServeMux.HandleFunc_ok (m : ServeMux) (path : String) (h : HandlerFunc)
    (hok : (ServeMux.HandleFunc m path h).1 = Except.ok ()) :
    m.entries.lookup path = none ∧
    (ServeMux.HandleFunc m path h).2 = { entries := m.entries ++ [(path, h)] } := by
  unfold ServeMux.HandleFunc at hok ⊢
  by_cases h1 : path = ""
  · simp [h1] at hok
  · by_cases h2 : (m.lookup path).isSome = true
    · simp [h1, h2] at hok
    · rw [if_neg h1, if_neg h2]
      refine ⟨?_, rfl⟩
      cases hl : m.entries.lookup path with
      | none => rfl
      | some v => exact absurd (by rw [ServeMux.lookup, hl]; rfl) h2

theorem ServeMux.conforming : ServeMux.router.Conforming ServeMux.lookup := by
  constructor
  · intro m path h hok _
    obtain ⟨hn, he⟩ := ServeMux.HandleFunc_ok m path h hok
    show ((ServeMux.HandleFunc m path h).2).lookup path = some h
    rw [he]
    exact lookup_append_of_none _ _ _ hn
  · intro m path h q hok hq
    obtain ⟨_, he⟩ := ServeMux.HandleFunc_ok m path h hok
    show ((ServeMux.HandleFunc m path h).2).lookup q = m.lookup q
    rw [he]
    exact lookup_append_of_ne _ _ _ _ hq

theorem adapter_conforming :
    (gorilla.router.asRouter gorilla.Wrapped.mux).Conforming gorilla.router.Match := by
  constructor
  · intro m path h _ hfree
    have hn : m.gr.routes.find? (fun rt => rt.path == path) = none := by
      simpa [gorilla.router.Match, mux.Router.Match] using hfree
    show (mux.Router.Match ({ routes := m.gr.routes ++ [{ path := path, handler := h }] })
      path) = some h
    simp [mux.Router.Match, hn]
  · intro m path h q _ hq
    have hb : (path == q) = false := by simpa using fun e => hq e.symm
    show (mux.Router.Match ({ routes := m.gr.routes ++ [{ path := path, handler := h }] })
      q) = m.gr.Match q
    simp [mux.Router.Match, hb]

theorem runCalls_singleton {ρ ε : Type} (R : Router ρ ε) (p : Ptr) (c : Call)
    (st : Store × ρ) : runCalls R p [c] st = c.run R p st := rfl

theorem lastTransition_concat (cs : List Call) (c : Call) :
    lastTransition (cs ++ [c]) = if c.isTransition = true then some c else lastTransition cs := by
  unfold lastTransition
  rw [List.filter_append]
  cases h : c.isTransition <;> simp [List.filter, h]

theorem runCalls_ready_of_lastTransition {ρ ε : Type} (R : Router ρ ε) (p : Ptr)
    (cs : List Call) : ∀ (t : Call) (st : Store × ρ), lastTransition cs = some t →
      (t = Call.Ready ∧ ((runCalls R p cs st).1 p).ready = true) ∨
      (t = Call.NotReady ∧ ((runCalls R p cs st).1 p).ready = false) := by
  induction cs using List.reverseRecOn with
  | nil => intro t st h; simp [lastTransition] at h
  | append_singleton cs c ih =>
    intro t st h
    rw [lastTransition_concat] at h
    rw [runCalls_append, runCalls_singleton]
    by_cases hc : c.isTransition = true
    · rw [if_pos hc] at h
      have hct : c = t := by simpa using h
      subst hct
      obtain ⟨s', m'⟩ := runCalls R p cs st
      cases c with
      | Ready => exact Or.inl ⟨rfl, by simp [Call.run, Ready_apply_self]⟩
      | NotReady => exact Or.inr ⟨rfl, by simp [Call.run, NotReady_apply_self]⟩
      | LivezHandler w r => simp [Call.isTransition] at hc
      | ReadyzHandler w r => simp [Call.isTransition] at hc
      | RegisterDefaults => simp [Call.isTransition] at hc
    · rw [if_neg hc] at h
      have hc' : c.isTransition = false := by simpa using hc
      rw [run_store_of_not_transition R p c hc']
      exact ih t st h

theorem get_ServeHTTP_of_dispatch {ρ : Type} (dispatch : ρ → String → Option HandlerFunc)
    (m : ρ) (path : String) (h : HandlerFunc) (hd : dispatch m path = some h) (s : Store) :
    get path (ServeHTTP dispatch m) s = get path h s := by
  simp only [get, ServeHTTP, NewRequest, hd]

theorem get_LivezHandler (path : String) (p : Ptr) (s : Store) :
    get path (Probe.LivezHandler p) s = 200 := rfl

theorem get_ReadyzHandler_var (path : String) (p : Ptr) (s : Store) :
    get path (Probe.ReadyzHandler p) (s.var p) = 503 := by
  simp [get, Store.var, Probe.ReadyzHandler, ResponseWriter.WriteHeader,
    ResponseWriter.StatusCode, NewRecorder, StatusServiceUnavailable]

theorem Match_none (r : mux.Router) (path : String) (h : r.Match path = none) :
    r.routes.find? (fun rt => rt.path == path) = none := by
  simpa [mux.Router.Match] using h

theorem adapter_HandleFunc_gr {ρ route ε : Type} (G : gorilla.Wrapped ρ route ε)
    (r : gorilla.router ρ) (path : String) (h : HandlerFunc) :
    (gorilla.router.HandleFunc G r path h).2.gr = (G.HandleFunc r.gr path h).2 := by
  unfold gorilla.router.HandleFunc
  rcases G.HandleFunc r.gr path h with ⟨e | u, g₁⟩ <;> rfl

theorem adapter_HandleFunc_outcome {ρ route ε : Type} (G : gorilla.Wrapped ρ route ε)
    (r : gorilla.router ρ) (path : String) (h : HandlerFunc) :
    (gorilla.router.HandleFunc G r path h).1 =
      (G.HandleFunc r.gr path h).1.map (fun _ => ()) := by
  unfold gorilla.router.HandleFunc
  rcases G.HandleFunc r.gr path h with ⟨e | u, g₁⟩ <;> rfl

theorem dispatch_livez_of_registered {ρ ε : Type} (R : Router ρ ε)
    (dispatch : ρ → String → Option HandlerFunc) (hR : R.Conforming dispatch)
    (p : Ptr) (m : ρ) (hfl : dispatch m "/livez" = none)
    (hok : (Probe.RegisterDefaults R p m).1 = Except.ok ()) :
    dispatch (Probe.RegisterDefaults R p m).2 "/livez" = some (Probe.LivezHandler p) := by
  have h1 := RegisterDefaults_ok_first R p m hok
  have he := RegisterDefaults_of_ok R p m h1
  have h2 : (R.HandleFunc (R.HandleFunc m DefaultLivezPath (Probe.LivezHandler p)).2
      DefaultReadyzPath (Probe.ReadyzHandler p)).1 = Except.ok () := by
    rw [← he]; exact hok
  have hne : ("/livez" : String) ≠ "/readyz" := by decide
  rw [he, hR.others _ _ _ "/livez" h2 hne]
  exact hR.bound _ _ _ h1 hfl

theorem dispatch_readyz_of_registered {ρ ε : Type} (R : Router ρ ε)
    (dispatch : ρ → String → Option HandlerFunc) (hR : R.Conforming dispatch)
    (p : Ptr) (m : ρ) (hfr : dispatch m "/readyz" = none)
    (hok : (Probe.RegisterDefaults R p m).1 = Except.ok ()) :
    dispatch (Probe.RegisterDefaults R p m).2 "/readyz" = some (Probe.ReadyzHandler p) := by
  have h1 := RegisterDefaults_ok_first R p m hok
  have he := RegisterDefaults_of_ok R p m h1
  have h2 : (R.HandleFunc (R.HandleFunc m DefaultLivezPath (Probe.LivezHandler p)).2
      DefaultReadyzPath (Probe.ReadyzHandler p)).1 = Except.ok () := by
    rw [← he]; exact hok
  have hne : ("/readyz" : String) ≠ "/livez" := by decide
  have hf : dispatch (R.HandleFunc m DefaultLivezPath (Probe.LivezHandler p)).2 "/readyz" =
      none := by
    rw [hR.others _ _ _ "/readyz" h1 hne]
    exact hfr
  rw [he]
  exact hR.bound _ _ _ h2 hf

/-! ## Registration on a router -/

/-- C5 (as amended): for every probe and every router that conforms to a dispatch-table
reading, when neither "/livez" nor "/readyz" has a handler on the router yet and
`RegisterDefaults` returns, it has made exactly the two `HandleFunc` calls, for
"/livez" and for "/readyz"; afterwards "/livez" resolves to the probe's `LivezHandler`
and "/readyz" to its `ReadyzHandler`, every other path resolves as before, and for every
store, writer and request serving "/livez" (resp. "/readyz") through the router gives
the response of calling `LivezHandler` (resp. `ReadyzHandler`) directly: 200 and 503 on
a probe just declared. -/
theorem RegisterDefaults_dispatch {ρ ε : Type} (R : Router ρ ε)
    (dispatch : ρ → String → Option HandlerFunc) (hR : R.Conforming dispatch)
    (p : Ptr) (m : ρ) (hfl : dispatch m "/livez" = none) (hfr : dispatch m "/readyz" = none)
    (hok : (Probe.RegisterDefaults R p m).1 = Except.ok ()) :
    (Probe.RegisterDefaults R p m).2 =
      (R.HandleFunc (R.HandleFunc m "/livez" (Probe.LivezHandler p)).2 "/readyz"
        (Probe.ReadyzHandler p)).2 ∧
    dispatch (Probe.RegisterDefaults R p m).2 "/livez" = some (Probe.LivezHandler p) ∧
    dispatch (Probe.RegisterDefaults R p m).2 "/readyz" = some (Probe.ReadyzHandler p) ∧
    (∀ q, q ≠ "/livez" → q ≠ "/readyz" →
      dispatch (Probe.RegisterDefaults R p m).2 q = dispatch m q) ∧
    (∀ s w r, r.Path = "/livez" →
      ServeHTTP dispatch (Probe.RegisterDefaults R p m).2 s w r =
        Probe.LivezHandler p s w r) ∧
    (∀ s w r, r.Path = "/readyz" →
      ServeHTTP dispatch (Probe.RegisterDefaults R p m).2 s w r =
        Probe.ReadyzHandler p s w r) ∧
    (∀ s : Store,
      get "/livez" (ServeHTTP dispatch (Probe.RegisterDefaults R p m).2) (s.var p) = 200 ∧
      get "/readyz" (ServeHTTP dispatch (Probe.RegisterDefaults R p m).2) (s.var p)
        = 503) := by
  have h1 := RegisterDefaults_ok_first R p m hok
  have he := RegisterDefaults_of_ok R p m h1
  have h2 : (R.HandleFunc (R.HandleFunc m DefaultLivezPath (Probe.LivezHandler p)).2
      DefaultReadyzPath (Probe.ReadyzHandler p)).1 = Except.ok () := by
    rw [← he]; exact hok
  have hl := dispatch_livez_of_registered R dispatch hR p m hfl hok
  have hr := dispatch_readyz_of_registered R dispatch hR p m hfr hok
  have sl : ∀ s w r, r.Path = "/livez" →
      ServeHTTP dispatch (Probe.RegisterDefaults R p m).2 s w r =
        Probe.LivezHandler p s w r := by
    intro s w r hp
    simp only [ServeHTTP, hp, hl]
  have sr : ∀ s w r, r.Path = "/readyz" →
      ServeHTTP dispatch (Probe.RegisterDefaults R p m).2 s w r =
        Probe.ReadyzHandler p s w r := by
    intro s w r hp
    simp only [ServeHTTP, hp, hr]
  refine ⟨by rw [he]; rfl, hl, hr, ?_, sl, sr, ?_⟩
  · intro q hq1 hq2
    rw [he, hR.others _ _ _ q h2 hq2]
    exact hR.others _ _ _ q h1 hq1
  · intro s
    constructor
    · unfold get
      rw [sl _ _ _ rfl]
      rfl
    · unfold get
      rw [sr _ _ _ rfl]
      simp [Store.var, Probe.ReadyzHandler, ResponseWriter.WriteHeader,
        ResponseWriter.StatusCode, NewRecorder, StatusServiceUnavailable]

/-- C5 (as amended), at concrete inputs: the standard multiplexer conforms, and on a new
one `RegisterDefaults` for the probe at address 0 returns, leaving exactly the two
entries "/livez" and "/readyz" and the responses 200 and 503; the adapted `mux.Router`
conforms too, and on one that has a route for "/other" only the responses are 200 and
503 as well. -/
theorem RegisterDefaults_dispatch_witness :
    (Probe.RegisterDefaults ServeMux.router 0 NewServeMux).1 = Except.ok () ∧
    (Probe.RegisterDefaults ServeMux.router 0 NewServeMux).2.entries =
      [("/livez", Probe.LivezHandler 0), ("/readyz", Probe.ReadyzHandler 0)] ∧
    ServeMux.lookup (Probe.RegisterDefaults ServeMux.router 0 NewServeMux).2 "/livez" =
      some (Probe.LivezHandler 0) ∧
    ServeMux.lookup (Probe.RegisterDefaults ServeMux.router 0 NewServeMux).2 "/readyz" =
      some (Probe.ReadyzHandler 0) ∧
    get "/livez" (ServeHTTP ServeMux.lookup
      (Probe.RegisterDefaults ServeMux.router 0 NewServeMux).2)
      (Store.var (fun _ => { ready := true }) 0) = 200 ∧
    get "/readyz" (ServeHTTP ServeMux.lookup
      (Probe.RegisterDefaults ServeMux.router 0 NewServeMux).2)
      (Store.var (fun _ => { ready := true }) 0) = 503 ∧
    get "/livez" (ServeHTTP gorilla.router.Match
      (Probe.RegisterDefaults (gorilla.router.asRouter gorilla.Wrapped.mux) 0
        (gorilla.Router { routes := [{ path := "/other", handler := teapot }] })).2)
      (Store.var (fun _ => { ready := true }) 0) = 200 ∧
    get "/readyz" (ServeHTTP gorilla.router.Match
      (Probe.RegisterDefaults (gorilla.router.asRouter gorilla.Wrapped.mux) 0
        (gorilla.Router { routes := [{ path := "/other", handler := teapot }] })).2)
      (Store.var (fun _ => { ready := true }) 0) = 503 :=
  have h := RegisterDefaults_dispatch ServeMux.router ServeMux.lookup ServeMux.conforming
    0 NewServeMux rfl rfl rfl
  have g := RegisterDefaults_dispatch (gorilla.router.asRouter gorilla.Wrapped.mux)
    gorilla.router.Match adapter_conforming 0
    (gorilla.Router { routes := [{ path := "/other", handler := teapot }] }) rfl rfl rfl
  ⟨rfl, rfl, h.2.1, h.2.2.1, (h.2.2.2.2.2.2 (fun _ => { ready := true })).1,
    (h.2.2.2.2.2.2 (fun _ => { ready := true })).2,
    (g.2.2.2.2.2.2 (fun _ => { ready := true })).1,
    (g.2.2.2.2.2.2 (fun _ => { ready := true })).2⟩

/-- C5, counterexample to the claim as stated. The standard multiplexer conforms; on one
where another part of the program has registered "/livez", `RegisterDefaults` for the
probe at address 0 panics at its first bind and binds nothing: "/livez" answers 418,
not the 200 of `LivezHandler`, and "/readyz" answers 404, not the 503 of
`ReadyzHandler`. The adapted `mux.Router` conforms too; on one that has a route for
"/livez" already `RegisterDefaults` returns, and "/livez" still answers 418. -/
theorem RegisterDefaults_dispatch_taken_path :
    ServeMux.router.Conforming ServeMux.lookup ∧
    (Probe.RegisterDefaults ServeMux.router 0 { entries := [("/livez", teapot)] }).1 =
      Except.error (ServeMuxPanic.multipleRegistrations "/livez") ∧
    (Probe.RegisterDefaults ServeMux.router 0 { entries := [("/livez", teapot)] }).2.entries
      = [("/livez", teapot)] ∧
    get "/livez" (ServeHTTP ServeMux.lookup
      (Probe.RegisterDefaults ServeMux.router 0 { entries := [("/livez", teapot)] }).2)
      (Store.var (fun _ => { ready := true }) 0) = 418 ∧
    get "/livez" (Probe.LivezHandler 0) (Store.var (fun _ => { ready := true }) 0) = 200 ∧
    get "/readyz" (ServeHTTP ServeMux.lookup
      (Probe.RegisterDefaults ServeMux.router 0 { entries := [("/livez", teapot)] }).2)
      (Store.var (fun _ => { ready := true }) 0) = 404 ∧
    get "/readyz" (Probe.ReadyzHandler 0) (Store.var (fun _ => { ready := true }) 0)
      = 503 ∧
    (gorilla.router.asRouter gorilla.Wrapped.mux).Conforming gorilla.router.Match ∧
    (Probe.RegisterDefaults (gorilla.router.asRouter gorilla.Wrapped.mux) 0
      (gorilla.Router { routes := [{ path := "/livez", handler := teapot }] })).1 =
      Except.ok () ∧
    get "/livez" (ServeHTTP gorilla.router.Match
      (Probe.RegisterDefaults (gorilla.router.asRouter gorilla.Wrapped.mux) 0
        (gorilla.Router { routes := [{ path := "/livez", handler := teapot }] })).2)
      (Store.var (fun _ => { ready := true }) 0) = 418 :=
  ⟨ServeMux.conforming, rfl, rfl, rfl, rfl, rfl, rfl, adapter_conforming, rfl, rfl⟩

/-! ## Transitions -/

/-- C6: `Ready` and `NotReady` are idempotent on every store; `Ready` on a probe whose
flag is true and `NotReady` on one whose flag is false leave the store as it is; and
after any number of repeated identical calls the store, and with it the response of
`ReadyzHandler`, is the same as after one. -/
theorem Ready_NotReady_idempotent (p : Ptr) (s : Store) (w : ResponseWriter) (r : Request)
    (n : Nat) :
    Probe.Ready p (Probe.Ready p s) = Probe.Ready p s ∧
    Probe.NotReady p (Probe.NotReady p s) = Probe.NotReady p s ∧
    ((s p).ready = true → Probe.Ready p s = s) ∧
    ((s p).ready = false → Probe.NotReady p s = s) ∧
    (Probe.Ready p)^[n + 1] s = Probe.Ready p s ∧
    (Probe.NotReady p)^[n + 1] s = Probe.NotReady p s ∧
    Probe.ReadyzHandler p ((Probe.Ready p)^[n + 1] s) w r =
      Probe.ReadyzHandler p (Probe.Ready p s) w r ∧
    Probe.ReadyzHandler p ((Probe.NotReady p)^[n + 1] s) w r =
      Probe.ReadyzHandler p (Probe.NotReady p s) w r := by
  have hR : ∀ t : Store, Probe.Ready p (Probe.Ready p t) = Probe.Ready p t := fun t =>
    Ready_of_ready p _ (by rw [Ready_apply_self])
  have hN : ∀ t : Store, Probe.NotReady p (Probe.NotReady p t) = Probe.NotReady p t :=
    fun t => NotReady_of_not_ready p _ (by rw [NotReady_apply_self])
  have iR : ∀ k : Nat, (Probe.Ready p)^[k + 1] s = Probe.Ready p s := by
    intro k
    induction k with
    | zero => rfl
    | succ k ih => rw [Function.iterate_succ_apply', ih, hR]
  have iN : ∀ k : Nat, (Probe.NotReady p)^[k + 1] s = Probe.NotReady p s := by
    intro k
    induction k with
    | zero => rfl
    | succ k ih => rw [Function.iterate_succ_apply', ih, hN]
  exact ⟨hR s, hN s, Ready_of_ready p s, NotReady_of_not_ready p s, iR n, iN n,
    by rw [iR n], by rw [iN n]⟩

/-- C6, at a concrete input: on the store whose cells are all ready, `Ready` at address 0
changes nothing, and on the store whose cells are all not ready, `NotReady` changes
nothing. -/
theorem Ready_NotReady_idempotent_witness :
    Probe.Ready 0 (fun _ => { ready := true }) = (fun _ => { ready := true }) ∧
    Probe.NotReady 0 (fun _ => { ready := false }) = (fun _ => { ready := false }) :=
  ⟨(Ready_NotReady_idempotent 0 (fun _ => { ready := true }) NewRecorder
      (NewRequest MethodGet "/") 0).2.2.1 rfl,
   (Ready_NotReady_idempotent 0 (fun _ => { ready := false }) NewRecorder
      (NewRequest MethodGet "/") 0).2.2.2.1 rfl⟩

/-- C7: for every router, every starting store and router state, and every sequence of
calls on the probe (transitions, handler invocations and `RegisterDefaults` calls, in any
order) that has at least one transition, the flag afterwards is true exactly when the
last transition of the sequence is `Ready` and false exactly when it is `NotReady`; it
is the same from every other starting store and router state and after any calls made
before the sequence. -/
theorem ready_reflects_last_transition {ρ ε : Type} (R : Router ρ ε) (p : Ptr) (s : Store)
    (m : ρ) (cs : List Call) (t : Call) (ht : lastTransition cs = some t) :
    (((runCalls R p cs (s, m)).1 p).ready = true ↔ t = Call.Ready) ∧
    (((runCalls R p cs (s, m)).1 p).ready = false ↔ t = Call.NotReady) ∧
    (∀ (s' : Store) (m' : ρ),
      ((runCalls R p cs (s', m')).1 p).ready = ((runCalls R p cs (s, m)).1 p).ready) ∧
    (∀ pre : List Call,
      ((runCalls R p (pre ++ cs) (s, m)).1 p).ready =
        ((runCalls R p cs (s, m)).1 p).ready) := by
  have key := runCalls_ready_of_lastTransition R p cs t
  have h0 := key (s, m) ht
  refine ⟨?_, ?_, ?_, ?_⟩
  · rcases h0 with ⟨h1, h2⟩ | ⟨h1, h2⟩
    · simp [h1, h2]
    · simp [h1, h2]
  · rcases h0 with ⟨h1, h2⟩ | ⟨h1, h2⟩
    · simp [h1, h2]
    · simp [h1, h2]
  · intro s' m'
    rcases h0 with ⟨h1, h2⟩ | ⟨h1, h2⟩ <;>
      rcases key (s', m') ht with ⟨h3, h4⟩ | ⟨h3, h4⟩ <;> simp_all
  · intro pre
    rw [runCalls_append]
    rcases h0 with ⟨h1, h2⟩ | ⟨h1, h2⟩ <;>
      rcases key (runCalls R p pre (s, m)) ht with ⟨h3, h4⟩ | ⟨h3, h4⟩ <;> simp_all

/-- C7, at a concrete input: from a store whose cells are all ready, the sequence
`NotReady`, `ReadyzHandler`, `Ready`, `RegisterDefaults`, `LivezHandler` on the probe at
address 0 ends with the flag true, its last transition being `Ready`. -/
theorem ready_reflects_last_transition_witness :
    lastTransition [Call.NotReady, Call.ReadyzHandler NewRecorder (NewRequest MethodGet "/"),
      Call.Ready, Call.RegisterDefaults,
      Call.LivezHandler NewRecorder (NewRequest MethodGet "/")] = some Call.Ready ∧
    ((runCalls ServeMux.router 0
      [Call.NotReady, Call.ReadyzHandler NewRecorder (NewRequest MethodGet "/"),
        Call.Ready, Call.RegisterDefaults,
        Call.LivezHandler NewRecorder (NewRequest MethodGet "/")]
      (fun _ => { ready := true }, NewServeMux)).1 0).ready = true :=
  ⟨rfl, (ready_reflects_last_transition ServeMux.router 0 (fun _ => { ready := true })
    NewServeMux
    [Call.NotReady, Call.ReadyzHandler NewRecorder (NewRequest MethodGet "/"),
      Call.Ready, Call.RegisterDefaults,
      Call.LivezHandler NewRecorder (NewRequest MethodGet "/")]
    Call.Ready rfl).1.mpr rfl⟩

/-- C8: in every store, after `NotReady` the probe's cell holds the zero value and the
whole store is the one a new declaration of the probe would give; `LivezHandler` and
`ReadyzHandler` answer on it exactly as on a probe just declared, with 200 and 503. -/
theorem NotReady_eq_zero_value (p : Ptr) (s : Store) (w : ResponseWriter) (r : Request) :
    (Probe.NotReady p s) p = { ready := false } ∧
    (s.var p) p = { ready := false } ∧
    Probe.NotReady p s = s.var p ∧
    Probe.LivezHandler p (Probe.NotReady p s) w r = Probe.LivezHandler p (s.var p) w r ∧
    Probe.ReadyzHandler p (Probe.NotReady p s) w r =
      Probe.ReadyzHandler p (s.var p) w r ∧
    (Probe.LivezHandler p (Probe.NotReady p s) w r).2.calls =
      w.calls ++ [WriterCall.WriteHeader 200] ∧
    (Probe.ReadyzHandler p (Probe.NotReady p s) w r).2.calls =
      w.calls ++ [WriterCall.WriteHeader 503] ∧
    (Probe.LivezHandler p (Probe.NotReady p s) NewRecorder r).2.StatusCode = 200 ∧
    (Probe.ReadyzHandler p (Probe.NotReady p s) NewRecorder r).2.StatusCode = 503 := by
  have h : Probe.NotReady p s = s.var p := rfl
  refine ⟨NotReady_apply_self p s, ?_, h, by rw [h], by rw [h], ?_, ?_, ?_, ?_⟩ <;>
    simp [Store.var, Probe.NotReady, Probe.LivezHandler, Probe.ReadyzHandler,
      ResponseWriter.WriteHeader, ResponseWriter.StatusCode, NewRecorder, StatusOK,
      StatusServiceUnavailable]

/-- C9: in every store and for every writer and request, `LivezHandler` and
`ReadyzHandler` return the store they were given. Hence a sequence of calls with no
`Ready` and no `NotReady` in it (handler invocations in any number and order, and
`RegisterDefaults` calls) leaves the store as it was, and a later `ReadyzHandler` or
`LivezHandler` call answers as it would have before the sequence; `Ready` and `NotReady`
do change the store. -/
theorem handlers_leave_store {ρ ε : Type} (R : Router ρ ε) (p : Ptr) (s : Store) (m : ρ)
    (w : ResponseWriter) (r : Request) (cs : List Call)
    (hcs : ∀ c ∈ cs, c.isTransition = false) :
    (Probe.LivezHandler p s w r).1 = s ∧
    (Probe.ReadyzHandler p s w r).1 = s ∧
    (runCalls R p cs (s, m)).1 = s ∧
    Probe.ReadyzHandler p (runCalls R p cs (s, m)).1 w r = Probe.ReadyzHandler p s w r ∧
    Probe.LivezHandler p (runCalls R p cs (s, m)).1 w r = Probe.LivezHandler p s w r ∧
    Probe.Ready p (s.var p) ≠ s.var p ∧
    Probe.NotReady p (Probe.Ready p s) ≠ Probe.Ready p s := by
  have h := runCalls_store_of_no_transition R p cs hcs (s, m)
  refine ⟨rfl, ReadyzHandler_store p s w r, h, by rw [h], by rw [h], ?_, ?_⟩
  · intro he
    have := congrFun he p
    simp [Probe.Ready, Store.var] at this
  · intro he
    have := congrFun he p
    simp [Probe.Ready, Probe.NotReady] at this

/-- C9, at a concrete input: three handler invocations and a `RegisterDefaults` call on
the probe at address 0, just declared, leave the store as it was. -/
theorem handlers_leave_store_witness :
    (runCalls ServeMux.router 0
      [Call.ReadyzHandler NewRecorder (NewRequest MethodGet "/readyz"),
        Call.LivezHandler NewRecorder (NewRequest "POST" "/livez"),
        Call.RegisterDefaults,
        Call.ReadyzHandler NewRecorder (NewRequest MethodGet "/")]
      (Store.var (fun _ => { ready := true }) 0, NewServeMux)).1 =
      Store.var (fun _ => { ready := true }) 0 :=
  (handlers_leave_store ServeMux.router 0 (Store.var (fun _ => { ready := true }) 0)
    NewServeMux NewRecorder (NewRequest MethodGet "/") _
    (by simp [Call.isTransition])).2.2.1

/-! ## The gorilla adapter -/

/-- C10 (as amended): for every wrapped router, path and handler, the adapter's
`HandleFunc` leaves the wrapped router exactly as one call of the wrapped router's own `HandleFunc` with the
same path and handler does, and returns or panics as that call does. Hence
`RegisterDefaults` through `gorilla.Router(gr)` leaves `gr` as binding "/livez" and then
"/readyz" on it directly does; on a `mux.Router` these are two new routes after the
ones it had. When the router had no route for either path, as a new one has not, a
probe just declared answers 200 on "/livez" and 503 on "/readyz", which is what it
answers through a new standard multiplexer. -/
theorem gorilla_adapter_transparent {ρ route ε : Type} (G : gorilla.Wrapped ρ route ε)
    (gr : ρ) (path : String) (h : HandlerFunc) (p : Ptr) (s : Store) (r : mux.Router) :
    (gorilla.router.HandleFunc G (gorilla.Router gr) path h).2.gr =
      (G.HandleFunc gr path h).2 ∧
    (gorilla.router.HandleFunc G (gorilla.Router gr) path h).1 =
      (G.HandleFunc gr path h).1.map (fun _ => ()) ∧
    (Probe.RegisterDefaults (gorilla.router.asRouter G) p (gorilla.Router gr)).2.gr =
      (match G.HandleFunc gr "/livez" (Probe.LivezHandler p) with
        | (Except.error _, g₁) => g₁
        | (Except.ok _, g₁) => (G.HandleFunc g₁ "/readyz" (Probe.ReadyzHandler p)).2) ∧
    (Probe.RegisterDefaults (gorilla.router.asRouter gorilla.Wrapped.mux) p
        (gorilla.Router r)).1 = Except.ok () ∧
    (Probe.RegisterDefaults (gorilla.router.asRouter gorilla.Wrapped.mux) p
        (gorilla.Router r)).2.gr =
      ((r.HandleFunc "/livez" (Probe.LivezHandler p)).2.HandleFunc "/readyz"
        (Probe.ReadyzHandler p)).2 ∧
    (Probe.RegisterDefaults (gorilla.router.asRouter gorilla.Wrapped.mux) p
        (gorilla.Router r)).2.gr.routes =
      r.routes ++ [{ path := "/livez", handler := Probe.LivezHandler p },
        { path := "/readyz", handler := Probe.ReadyzHandler p }] ∧
    (r.Match "/livez" = none → r.Match "/readyz" = none →
      get "/livez" (mux.Router.ServeHTTP
        (Probe.RegisterDefaults (gorilla.router.asRouter gorilla.Wrapped.mux) p
          (gorilla.Router r)).2.gr) (s.var p) = 200 ∧
      get "/readyz" (mux.Router.ServeHTTP
        (Probe.RegisterDefaults (gorilla.router.asRouter gorilla.Wrapped.mux) p
          (gorilla.Router r)).2.gr) (s.var p) = 503) ∧
    get "/livez" (mux.Router.ServeHTTP
      (Probe.RegisterDefaults (gorilla.router.asRouter gorilla.Wrapped.mux) p
        (gorilla.Router mux.NewRouter)).2.gr) (s.var p) = 200 ∧
    get "/readyz" (mux.Router.ServeHTTP
      (Probe.RegisterDefaults (gorilla.router.asRouter gorilla.Wrapped.mux) p
        (gorilla.Router mux.NewRouter)).2.gr) (s.var p) = 503 ∧
    get "/livez" (ServeMux.ServeHTTP
      (Probe.RegisterDefaults ServeMux.router p NewServeMux).2) (s.var p) = 200 ∧
    get "/readyz" (ServeMux.ServeHTTP
      (Probe.RegisterDefaults ServeMux.router p NewServeMux).2) (s.var p) = 503 := by
  have hmux : ∀ (r : mux.Router), r.Match "/livez" = none → r.Match "/readyz" = none →
      get "/livez" (mux.Router.ServeHTTP
        (Probe.RegisterDefaults (gorilla.router.asRouter gorilla.Wrapped.mux) p
          (gorilla.Router r)).2.gr) (s.var p) = 200 ∧
      get "/readyz" (mux.Router.ServeHTTP
        (Probe.RegisterDefaults (gorilla.router.asRouter gorilla.Wrapped.mux) p
          (gorilla.Router r)).2.gr) (s.var p) = 503 := by
    intro r hl hr
    have e : (Probe.RegisterDefaults (gorilla.router.asRouter gorilla.Wrapped.mux) p
        (gorilla.Router r)).2.gr =
        { routes := r.routes ++ [{ path := "/livez", handler := Probe.LivezHandler p },
          { path := "/readyz", handler := Probe.ReadyzHandler p }] } := by
      show ({ routes := (r.routes ++ [_]) ++ [_] } : mux.Router) = _
      rw [List.append_assoc]
      rfl
    have dl : mux.Router.Match (Probe.RegisterDefaults
        (gorilla.router.asRouter gorilla.Wrapped.mux) p (gorilla.Router r)).2.gr "/livez" =
        some (Probe.LivezHandler p) := by
      rw [e]
      simp [mux.Router.Match, Match_none r _ hl]
    have dr : mux.Router.Match (Probe.RegisterDefaults
        (gorilla.router.asRouter gorilla.Wrapped.mux) p (gorilla.Router r)).2.gr "/readyz" =
        some (Probe.ReadyzHandler p) := by
      rw [e]
      simp [mux.Router.Match, Match_none r _ hr]
    constructor
    · unfold mux.Router.ServeHTTP
      rw [get_ServeHTTP_of_dispatch _ _ _ _ dl]
      rfl
    · unfold mux.Router.ServeHTTP
      rw [get_ServeHTTP_of_dispatch _ _ _ _ dr]
      exact get_ReadyzHandler_var _ p s
  have hnew := hmux mux.NewRouter rfl rfl
  refine ⟨?_, ?_, ?_, rfl, rfl, ?_, hmux r, hnew.1, hnew.2, rfl, ?_⟩
  · exact adapter_HandleFunc_gr G (gorilla.Router gr) path h
  · exact adapter_HandleFunc_outcome G (gorilla.Router gr) path h
  · have hg := adapter_HandleFunc_gr G (gorilla.Router gr) "/livez" (Probe.LivezHandler p)
    have ho := adapter_HandleFunc_outcome G (gorilla.Router gr) "/livez"
      (Probe.LivezHandler p)
    rw [show (gorilla.Router gr).gr = gr from rfl] at hg ho
    rcases hA : G.HandleFunc gr "/livez" (Probe.LivezHandler p) with ⟨e | u, g₁⟩
    · rw [hA] at hg ho
      rw [RegisterDefaults_of_error (gorilla.router.asRouter G) p (gorilla.Router gr) e ho]
      exact hg
    · rw [hA] at hg ho
      rw [RegisterDefaults_of_ok (gorilla.router.asRouter G) p (gorilla.Router gr) ho]
      have hg2 := adapter_HandleFunc_gr G
        (gorilla.router.HandleFunc G (gorilla.Router gr) "/livez" (Probe.LivezHandler p)).2
        "/readyz" (Probe.ReadyzHandler p)
      rw [hg] at hg2
      exact hg2
  · show (r.routes ++ [_]) ++ [_] = _
    rw [List.append_assoc]
    rfl
  · have d : ServeMux.lookup (Probe.RegisterDefaults ServeMux.router p NewServeMux).2
        "/readyz" = some (Probe.ReadyzHandler p) := rfl
    unfold ServeMux.ServeHTTP
    rw [get_ServeHTTP_of_dispatch _ _ _ _ d]
    exact get_ReadyzHandler_var _ p s

/-- C10 (as amended), at a concrete input: a router that already has a route for "/other", wrapped by
the adapter, has no route for "/livez" or "/readyz", and after `RegisterDefaults` for
the probe at address 0, just declared, it answers 200 and 503 on them. -/
theorem gorilla_adapter_transparent_witness :
    get "/livez" (mux.Router.ServeHTTP
      (Probe.RegisterDefaults (gorilla.router.asRouter gorilla.Wrapped.mux) 0
        (gorilla.Router { routes := [{ path := "/other", handler := NotFound }] })).2.gr)
      (Store.var (fun _ => { ready := true }) 0) = 200 ∧
    get "/readyz" (mux.Router.ServeHTTP
      (Probe.RegisterDefaults (gorilla.router.asRouter gorilla.Wrapped.mux) 0
        (gorilla.Router { routes := [{ path := "/other", handler := NotFound }] })).2.gr)
      (Store.var (fun _ => { ready := true }) 0) = 503 :=
  (gorilla_adapter_transparent gorilla.Wrapped.mux mux.NewRouter "/livez"
    (Probe.LivezHandler 0) 0 (fun _ => { ready := true })
    { routes := [{ path := "/other", handler := NotFound }] }).2.2.2.2.2.2.1 rfl rfl

/-- C10, counterexample to the claim as stated. On a `mux.Router` that has a route for
"/livez" from another part of the program, `RegisterDefaults` through the adapter for
the probe at address 0, just declared, returns and adds its two routes after that one,
and "/livez" answers 418, where a new standard multiplexer answers 200; on one that has
a route for "/readyz", "/readyz" answers 418, where a new standard multiplexer answers
503. -/
theorem gorilla_adapter_earlier_route :
    (Probe.RegisterDefaults (gorilla.router.asRouter gorilla.Wrapped.mux) 0
      (gorilla.Router { routes := [{ path := "/livez", handler := teapot }] })).1 =
      Except.ok () ∧
    (Probe.RegisterDefaults (gorilla.router.asRouter gorilla.Wrapped.mux) 0
      (gorilla.Router { routes := [{ path := "/livez", handler := teapot }] })).2.gr.routes
      = [{ path := "/livez", handler := teapot },
          { path := "/livez", handler := Probe.LivezHandler 0 },
          { path := "/readyz", handler := Probe.ReadyzHandler 0 }] ∧
    get "/livez" (mux.Router.ServeHTTP
      (Probe.RegisterDefaults (gorilla.router.asRouter gorilla.Wrapped.mux) 0
        (gorilla.Router { routes := [{ path := "/livez", handler := teapot }] })).2.gr)
      (Store.var (fun _ => { ready := true }) 0) = 418 ∧
    get "/livez" (ServeMux.ServeHTTP
      (Probe.RegisterDefaults ServeMux.router 0 NewServeMux).2)
      (Store.var (fun _ => { ready := true }) 0) = 200 ∧
    get "/readyz" (mux.Router.ServeHTTP
      (Probe.RegisterDefaults (gorilla.router.asRouter gorilla.Wrapped.mux) 0
        (gorilla.Router { routes := [{ path := "/readyz", handler := teapot }] })).2.gr)
      (Store.var (fun _ => { ready := true }) 0) = 418 ∧
    get "/readyz" (ServeMux.ServeHTTP
      (Probe.RegisterDefaults ServeMux.router 0 NewServeMux).2)
      (Store.var (fun _ => { ready := true }) 0) = 503 :=
  ⟨rfl, rfl, rfl, rfl, rfl, rfl⟩

/-! ## Failing binds -/

/-- C11: with a router whose `HandleFunc` may panic, `RegisterDefaults` panics with `e`
exactly when the bind of "/livez" panics with `e`, or that bind returns and the bind of
"/readyz", made on the router the first bind left, panics with `e`; it returns exactly
when both binds return. The panic value is the one of the first failing bind,
unchanged: on a standard multiplexer that has "/livez" already it is the multiplexer's
own value for "/livez", and on one that has only "/readyz" it is the one for
"/readyz". -/
theorem RegisterDefaults_propagates {ρ ε : Type} (R : Router ρ ε) (p : Ptr) (m : ρ)
    (e : ε) (h : HandlerFunc) :
    ((Probe.RegisterDefaults R p m).1 = Except.error e ↔
      ((R.HandleFunc m "/livez" (Probe.LivezHandler p)).1 = Except.error e ∨
        ((R.HandleFunc m "/livez" (Probe.LivezHandler p)).1 = Except.ok () ∧
          (R.HandleFunc (R.HandleFunc m "/livez" (Probe.LivezHandler p)).2 "/readyz"
            (Probe.ReadyzHandler p)).1 = Except.error e))) ∧
    ((Probe.RegisterDefaults R p m).1 = Except.ok () ↔
      ((R.HandleFunc m "/livez" (Probe.LivezHandler p)).1 = Except.ok () ∧
        (R.HandleFunc (R.HandleFunc m "/livez" (Probe.LivezHandler p)).2 "/readyz"
          (Probe.ReadyzHandler p)).1 = Except.ok ())) ∧
    (Probe.RegisterDefaults ServeMux.router p { entries := [("/livez", h)] }).1 =
      Except.error (ServeMuxPanic.multipleRegistrations "/livez") ∧
    (ServeMux.HandleFunc { entries := [("/livez", h)] } "/livez"
      (Probe.LivezHandler p)).1 =
      Except.error (ServeMuxPanic.multipleRegistrations "/livez") ∧
    (Probe.RegisterDefaults ServeMux.router p { entries := [("/readyz", h)] }).1 =
      Except.error (ServeMuxPanic.multipleRegistrations "/readyz") ∧
    (ServeMux.HandleFunc { entries := [("/readyz", h), ("/livez", Probe.LivezHandler p)] }
      "/readyz" (Probe.ReadyzHandler p)).1 =
      Except.error (ServeMuxPanic.multipleRegistrations "/readyz") ∧
    (Probe.RegisterDefaults ServeMux.router p NewServeMux).1 = Except.ok () := by
  refine ⟨?_, ?_, rfl, rfl, rfl, rfl, rfl⟩
  · rcases hf : (R.HandleFunc m DefaultLivezPath (Probe.LivezHandler p)).1 with e₁ | u
    · rw [RegisterDefaults_of_error R p m e₁ hf]
      have hf' : (R.HandleFunc m "/livez" (Probe.LivezHandler p)).1 = Except.error e₁ := hf
      rw [hf']
      simp
    · rw [RegisterDefaults_of_ok R p m hf]
      have hf' : (R.HandleFunc m "/livez" (Probe.LivezHandler p)).1 = Except.ok () := hf
      rw [hf']
      simp [DefaultLivezPath, DefaultReadyzPath]
  · rcases hf : (R.HandleFunc m DefaultLivezPath (Probe.LivezHandler p)).1 with e₁ | u
    · rw [RegisterDefaults_of_error R p m e₁ hf]
      have hf' : (R.HandleFunc m "/livez" (Probe.LivezHandler p)).1 = Except.error e₁ := hf
      rw [hf']
      simp
    · rw [RegisterDefaults_of_ok R p m hf]
      have hf' : (R.HandleFunc m "/livez" (Probe.LivezHandler p)).1 = Except.ok () := hf
      rw [hf']
      simp [DefaultLivezPath, DefaultReadyzPath]

/-! ## Requests -/

/-- C13: in every store and for every writer, each handler gives the same result, store
and writer both, for any two requests, whatever their method, path, headers and body;
the status the test helper `get` reports does not depend on the path. -/
theorem handlers_ignore_request (p : Ptr) (s : Store) (w : ResponseWriter)
    (r₁ r₂ : Request) (path₁ path₂ : String) :
    Probe.LivezHandler p s w r₁ = Probe.LivezHandler p s w r₂ ∧
    Probe.ReadyzHandler p s w r₁ = Probe.ReadyzHandler p s w r₂ ∧
    get path₁ (Probe.LivezHandler p) s = get path₂ (Probe.LivezHandler p) s ∧
    get path₁ (Probe.ReadyzHandler p) s = get path₂ (Probe.ReadyzHandler p) s :=
  ⟨rfl, rfl, rfl, rfl⟩

/-! ## Registered handlers and later transitions -/

theorem run_router_of_transition {ρ ε : Type} (R : Router ρ ε) (p : Ptr) (c : Call)
    (hc : c.isTransition = true) (st : Store × ρ) : (c.run R p st).2 = st.2 := by
  obtain ⟨s, m⟩ := st
  cases c with
  | Ready => rfl
  | NotReady => rfl
  | LivezHandler w r => rfl
  | ReadyzHandler w r => rfl
  | RegisterDefaults => simp [Call.isTransition] at hc

theorem runCalls_router_of_transitions {ρ ε : Type} (R : Router ρ ε) (p : Ptr)
    (cs : List Call) (hcs : ∀ c ∈ cs, c.isTransition = true) (st : Store × ρ) :
    (runCalls R p cs st).2 = st.2 := by
  induction cs generalizing st with
  | nil => rfl
  | cons c cs ih =>
    have h1 := run_router_of_transition R p c (hcs c (List.mem_cons_self c cs)) st
    have h2 := ih (fun d hd => hcs d (List.mem_cons_of_mem c hd)) (c.run R p st)
    simpa [runCalls, h1] using h2

theorem get_ReadyzHandler (path : String) (p : Ptr) (s : Store) :
    get path (Probe.ReadyzHandler p) s = if (s p).ready = true then 200 else 503 := by
  cases h : (s p).ready <;>
    simp [get, Probe.ReadyzHandler, h, ResponseWriter.WriteHeader,
      ResponseWriter.StatusCode, NewRecorder, StatusOK, StatusServiceUnavailable]

/-- C14 (as amended): for every probe and every router that conforms to a dispatch-table
reading, when "/readyz" has no handler on the router yet and `RegisterDefaults`
returns, after `RegisterDefaults` followed by any sequence of `Ready` and `NotReady`
calls, serving "/readyz" through the router gives what `ReadyzHandler` gives on the
store as it is then: 200 exactly when the flag is then true, 503 exactly when it is
false (so 200 after registering on a probe just declared and then calling `Ready`,
where it was 503 at registration). `RegisterDefaults` leaves the store as it was, and
the store the sequence ends in is the one it ends in without the registration. -/
theorem registered_handlers_read_live_probe {ρ ε : Type} (R : Router ρ ε)
    (dispatch : ρ → String → Option HandlerFunc) (hR : R.Conforming dispatch)
    (p : Ptr) (s : Store) (m : ρ) (hfr : dispatch m "/readyz" = none)
    (hok : (Probe.RegisterDefaults R p m).1 = Except.ok ())
    (cs : List Call) (hcs : ∀ c ∈ cs, c.isTransition = true) :
    (get "/readyz"
        (ServeHTTP dispatch (runCalls R p (Call.RegisterDefaults :: cs) (s, m)).2)
        (runCalls R p (Call.RegisterDefaults :: cs) (s, m)).1 = 200 ↔
      ((runCalls R p (Call.RegisterDefaults :: cs) (s, m)).1 p).ready = true) ∧
    (get "/readyz"
        (ServeHTTP dispatch (runCalls R p (Call.RegisterDefaults :: cs) (s, m)).2)
        (runCalls R p (Call.RegisterDefaults :: cs) (s, m)).1 = 503 ↔
      ((runCalls R p (Call.RegisterDefaults :: cs) (s, m)).1 p).ready = false) ∧
    (∀ w r, r.Path = "/readyz" →
      ServeHTTP dispatch (runCalls R p (Call.RegisterDefaults :: cs) (s, m)).2
          (runCalls R p (Call.RegisterDefaults :: cs) (s, m)).1 w r =
        Probe.ReadyzHandler p (runCalls R p (Call.RegisterDefaults :: cs) (s, m)).1 w r) ∧
    (Call.run R p Call.RegisterDefaults (s, m)).1 = s ∧
    (runCalls R p (Call.RegisterDefaults :: cs) (s, m)).1 = (runCalls R p cs (s, m)).1 ∧
    get "/readyz" (ServeHTTP dispatch (Probe.RegisterDefaults R p m).2) (s.var p) = 503 ∧
    get "/readyz" (ServeHTTP dispatch (Probe.RegisterDefaults R p m).2)
      (Probe.Ready p (s.var p)) = 200 := by
  have hd := dispatch_readyz_of_registered R dispatch hR p m hfr hok
  have hm : (runCalls R p (Call.RegisterDefaults :: cs) (s, m)).2 =
      (Probe.RegisterDefaults R p m).2 :=
    runCalls_router_of_transitions R p cs hcs (s, (Probe.RegisterDefaults R p m).2)
  have hs : ∀ (cs : List Call) (a b : ρ),
      (runCalls R p cs (s, a)).1 = (runCalls R p cs (s, b)).1 := by
    intro cs
    induction cs using List.reverseRecOn with
    | nil => intro a b; rfl
    | append_singleton cs c ih =>
      intro a b
      rw [runCalls_append, runCalls_append, runCalls_singleton, runCalls_singleton]
      have := ih a b
      rcases h1 : runCalls R p cs (s, a) with ⟨s₁, a₁⟩
      rcases h2 : runCalls R p cs (s, b) with ⟨s₂, b₁⟩
      rw [h1, h2] at this
      simp only at this
      subst this
      cases c <;> rfl
  have hst : (runCalls R p (Call.RegisterDefaults :: cs) (s, m)).1 =
      (runCalls R p cs (s, m)).1 := hs cs _ _
  rw [hm]
  refine ⟨?_, ?_, ?_, rfl, hst, ?_, ?_⟩
  · rw [get_ServeHTTP_of_dispatch _ _ _ _ hd, get_ReadyzHandler]
    cases ((runCalls R p (Call.RegisterDefaults :: cs) (s, m)).1 p).ready <;> simp
  · rw [get_ServeHTTP_of_dispatch _ _ _ _ hd, get_ReadyzHandler]
    cases ((runCalls R p (Call.RegisterDefaults :: cs) (s, m)).1 p).ready <;> simp
  · intro w r hp
    simp only [ServeHTTP, hp, hd]
  · rw [get_ServeHTTP_of_dispatch _ _ _ _ hd]
    exact get_ReadyzHandler_var _ p s
  · rw [get_ServeHTTP_of_dispatch _ _ _ _ hd, get_ReadyzHandler, Ready_apply_self]
    rfl

/-- C14 (as amended), at a concrete input: the probe at address 0 is declared and
registered, through the adapter, on a `mux.Router` that has a route for "/other" only;
then `Ready`, `NotReady` and `Ready` are called; "/readyz" then answers 200. -/
theorem registered_handlers_read_live_probe_witness :
    gorilla.router.Match
      (gorilla.Router { routes := [{ path := "/other", handler := teapot }] }) "/readyz"
      = none ∧
    (Probe.RegisterDefaults (gorilla.router.asRouter gorilla.Wrapped.mux) 0
      (gorilla.Router { routes := [{ path := "/other", handler := teapot }] })).1 =
      Except.ok () ∧
    get "/readyz"
      (ServeHTTP gorilla.router.Match
        (runCalls (gorilla.router.asRouter gorilla.Wrapped.mux) 0
          [Call.RegisterDefaults, Call.Ready, Call.NotReady, Call.Ready]
          (Store.var (fun _ => { ready := true }) 0,
            gorilla.Router { routes := [{ path := "/other", handler := teapot }] })).2)
      (runCalls (gorilla.router.asRouter gorilla.Wrapped.mux) 0
        [Call.RegisterDefaults, Call.Ready, Call.NotReady, Call.Ready]
        (Store.var (fun _ => { ready := true }) 0,
          gorilla.Router { routes := [{ path := "/other", handler := teapot }] })).1
      = 200 :=
  ⟨rfl, rfl, (registered_handlers_read_live_probe
    (gorilla.router.asRouter gorilla.Wrapped.mux) gorilla.router.Match adapter_conforming
    0 (Store.var (fun _ => { ready := true }) 0)
    (gorilla.Router { routes := [{ path := "/other", handler := teapot }] }) rfl rfl
    [Call.Ready, Call.NotReady, Call.Ready] (by simp [Call.isTransition])).1.mpr rfl⟩

/-- C14, counterexample to the claim as stated. Two probes, at addresses 0 and 1, are
declared and the first is registered, through the adapter, on a new `mux.Router` and
made ready. `RegisterDefaults` for the second probe on the same router returns, and
the second probe is not ready, yet "/readyz" answers 200: the router serves the route
of the first probe. And on a standard multiplexer where another part of the program
has registered "/readyz", `RegisterDefaults` for the probe at address 0 panics at its
second bind, and after `Ready` "/readyz" answers 418, not 200. -/
theorem registered_handlers_other_probe :
    (Probe.RegisterDefaults (gorilla.router.asRouter gorilla.Wrapped.mux) 1
      (Probe.RegisterDefaults (gorilla.router.asRouter gorilla.Wrapped.mux) 0
        (gorilla.Router mux.NewRouter)).2).1 = Except.ok () ∧
    ((runCalls (gorilla.router.asRouter gorilla.Wrapped.mux) 1 [Call.RegisterDefaults]
      (Probe.Ready 0 (Store.var (Store.var (fun _ => { ready := true }) 0) 1),
        (Probe.RegisterDefaults (gorilla.router.asRouter gorilla.Wrapped.mux) 0
          (gorilla.Router mux.NewRouter)).2)).1 1).ready = false ∧
    get "/readyz"
      (ServeHTTP gorilla.router.Match
        (runCalls (gorilla.router.asRouter gorilla.Wrapped.mux) 1 [Call.RegisterDefaults]
          (Probe.Ready 0 (Store.var (Store.var (fun _ => { ready := true }) 0) 1),
            (Probe.RegisterDefaults (gorilla.router.asRouter gorilla.Wrapped.mux) 0
              (gorilla.Router mux.NewRouter)).2)).2)
      (runCalls (gorilla.router.asRouter gorilla.Wrapped.mux) 1 [Call.RegisterDefaults]
        (Probe.Ready 0 (Store.var (Store.var (fun _ => { ready := true }) 0) 1),
          (Probe.RegisterDefaults (gorilla.router.asRouter gorilla.Wrapped.mux) 0
            (gorilla.Router mux.NewRouter)).2)).1 = 200 ∧
    (Probe.RegisterDefaults ServeMux.router 0 { entries := [("/readyz", teapot)] }).1 =
      Except.error (ServeMuxPanic.multipleRegistrations "/readyz") ∧
    ((runCalls ServeMux.router 0 [Call.RegisterDefaults, Call.Ready]
      (Store.var (fun _ => { ready := true }) 0,
        { entries := [("/readyz", teapot)] })).1 0).ready = true ∧
    get "/readyz"
      (ServeHTTP ServeMux.lookup
        (runCalls ServeMux.router 0 [Call.RegisterDefaults, Call.Ready]
          (Store.var (fun _ => { ready := true }) 0,
            { entries := [("/readyz", teapot)] })).2)
      (runCalls ServeMux.router 0 [Call.RegisterDefaults, Call.Ready]
        (Store.var (fun _ => { ready := true }) 0,
          { entries := [("/readyz", teapot)] })).1 = 418 :=
  ⟨rfl, rfl, rfl, rfl, rfl, rfl⟩

/-! ## Order of the binds -/

/-- C15: for every probe and every router, the `HandleFunc` calls the router receives from
`RegisterDefaults` are, in this order, the one for "/livez" with `LivezHandler` and the
one for "/readyz" with `ReadyzHandler`, both when the first returns and only the first
when it panics. In the second case the router is left as the panicking bind of "/livez"
left it, no bind of "/readyz" having been made on it: a standard multiplexer that has
"/livez" already receives the one call, keeps its entries and has no handler for
"/readyz" afterwards. Noting the calls changes neither outcome nor router. -/
theorem RegisterDefaults_bind_order {ρ ε : Type} (R : Router ρ ε) (p : Ptr) (m : ρ)
    (log : List (String × HandlerFunc)) (h : HandlerFunc) :
    (Probe.RegisterDefaults (Router.recording R) p (log, m)).2.1 =
      log ++ (match (R.HandleFunc m "/livez" (Probe.LivezHandler p)).1 with
        | Except.ok _ =>
          [("/livez", Probe.LivezHandler p), ("/readyz", Probe.ReadyzHandler p)]
        | Except.error _ => [("/livez", Probe.LivezHandler p)]) ∧
    (Probe.RegisterDefaults (Router.recording R) p (log, m)).1 =
      (Probe.RegisterDefaults R p m).1 ∧
    (Probe.RegisterDefaults (Router.recording R) p (log, m)).2.2 =
      (Probe.RegisterDefaults R p m).2 ∧
    (Probe.RegisterDefaults R p m).2 =
      (match (R.HandleFunc m "/livez" (Probe.LivezHandler p)).1 with
        | Except.ok _ =>
          (R.HandleFunc (R.HandleFunc m "/livez" (Probe.LivezHandler p)).2 "/readyz"
            (Probe.ReadyzHandler p)).2
        | Except.error _ => (R.HandleFunc m "/livez" (Probe.LivezHandler p)).2) ∧
    (Probe.RegisterDefaults (Router.recording ServeMux.router) p
        ([], NewServeMux)).2.1 =
      [("/livez", Probe.LivezHandler p), ("/readyz", Probe.ReadyzHandler p)] ∧
    (Probe.RegisterDefaults (Router.recording ServeMux.router) p
        ([], { entries := [("/livez", h)] })).2.1 = [("/livez", Probe.LivezHandler p)] ∧
    (Probe.RegisterDefaults ServeMux.router p { entries := [("/livez", h)] }).2.entries =
      [("/livez", h)] ∧
    ServeMux.lookup (Probe.RegisterDefaults ServeMux.router p
      { entries := [("/livez", h)] }).2 "/readyz" = none := by
  have hlog : (Probe.RegisterDefaults (Router.recording R) p (log, m)).2.1 =
      log ++ (match (R.HandleFunc m "/livez" (Probe.LivezHandler p)).1 with
        | Except.ok _ =>
          [("/livez", Probe.LivezHandler p), ("/readyz", Probe.ReadyzHandler p)]
        | Except.error _ => [("/livez", Probe.LivezHandler p)]) := by
    rcases hf : (R.HandleFunc m "/livez" (Probe.LivezHandler p)).1 with e | u
    · rw [RegisterDefaults_of_error (Router.recording R) p (log, m) e hf]
      rfl
    · rw [RegisterDefaults_of_ok (Router.recording R) p (log, m) hf]
      show (log ++ [_]) ++ [_] = log ++ [_, _]
      rw [List.append_assoc]
      rfl
  have hout : (Probe.RegisterDefaults (Router.recording R) p (log, m)).1 =
      (Probe.RegisterDefaults R p m).1 := by
    rcases hf : (R.HandleFunc m "/livez" (Probe.LivezHandler p)).1 with e | u
    · rw [RegisterDefaults_of_error (Router.recording R) p (log, m) e hf,
        RegisterDefaults_of_error R p m e hf]
    · rw [RegisterDefaults_of_ok (Router.recording R) p (log, m) hf,
        RegisterDefaults_of_ok R p m hf]
      rfl
  have hrouter : (Probe.RegisterDefaults (Router.recording R) p (log, m)).2.2 =
      (Probe.RegisterDefaults R p m).2 := by
    rcases hf : (R.HandleFunc m "/livez" (Probe.LivezHandler p)).1 with e | u
    · rw [RegisterDefaults_of_error (Router.recording R) p (log, m) e hf,
        RegisterDefaults_of_error R p m e hf]
      rfl
    · rw [RegisterDefaults_of_ok (Router.recording R) p (log, m) hf,
        RegisterDefaults_of_ok R p m hf]
      rfl
  have hleft : (Probe.RegisterDefaults R p m).2 =
      (match (R.HandleFunc m "/livez" (Probe.LivezHandler p)).1 with
        | Except.ok _ =>
          (R.HandleFunc (R.HandleFunc m "/livez" (Probe.LivezHandler p)).2 "/readyz"
            (Probe.ReadyzHandler p)).2
        | Except.error _ => (R.HandleFunc m "/livez" (Probe.LivezHandler p)).2) := by
    rcases hf : (R.HandleFunc m "/livez" (Probe.LivezHandler p)).1 with e | u
    · rw [RegisterDefaults_of_error R p m e hf]
      rfl
    · rw [RegisterDefaults_of_ok R p m hf]
      rfl
  exact ⟨hlog, hout, hrouter, hleft, rfl, rfl, rfl, rfl⟩

end probe
